import Mathlib

/-!
Shallow embedding of the FloodPilot DIN 1986-100 assessment engine
(`src/services/din1986Engine.ts`) and of the hydrology helpers it imports.

Conventions of the embedding:
* JavaScript numbers carrying engine decisions are embedded as exact rationals `ℚ`;
  the kinematic-wave model, which involves square roots and fractional powers, lives in `ℝ`.
* The `zeitstempel` (wall-clock ISO timestamp) field of the result is outside the pure
  computation and is omitted from the embedded result record.
* The `begruendung` string is built by interpolating the runoff-effective area into one of
  two fixed templates; the embedding keeps this structurally as an inductive carrying the
  interpolated value.
* `computePeakRunoff`, `computeWQv`, `RUNOFF_COEFFICIENTS` (from `utils/hydrology`) and
  `computeKinematicWaveSolution` (from `ml/pinnModel`) are imported by the engine but their
  sources are not part of the repository snapshot; they are modelled from the spec, each
  with a doc comment saying so.
-/

namespace FloodPilot

/-- Soil type per DIN 18196, the `bodenart` field of `DIN1986Input`. -/
inductive Bodenart
  | GW
  | GI
  | SE
  | SU
  | TL
  | TM
deriving DecidableEq

/-- SCS hydrologic soil group, codomain of `SOIL_SCS_MAP`. -/
inductive SCSGroup
  | A
  | B
  | C
  | D
deriving DecidableEq

/-- Compliance status, the `nachweisStatus` field of `DIN1986Result`. -/
inductive NachweisStatus
  | BESTANDEN
  | NICHT_BESTANDEN
  | PRUEFUNG_ERFORDERLICH
deriving DecidableEq

/-- Input record of the engine (`DIN1986Input` in `din1986Engine.ts`). -/
structure DIN1986Input where
  projectName : String
  grundstuecksflaeche : ℚ
  versiegelteFlaeche : ℚ
  bodenart : Bodenart
  gelaendeneigung : ℚ
  manningN : ℚ
  fliesslaenge : ℚ
  latitude : ℚ
  longitude : ℚ

/-- KOSTRA-DWD 2020 rainfall intensities for Berlin in mm/hr, keyed by return period in
years (`BERLIN_KOSTRA` in `din1986Engine.ts`); `none` embeds a missing record key. -/
def BERLIN_KOSTRA : ℕ → Option ℚ
  | 2 => some 95
  | 5 => some 125
  | 10 => some 145
  | 30 => some 175
  | 50 => some 195
  | 100 => some 220
  | _ => none

/-- Soil type to SCS group mapping (`SOIL_SCS_MAP` in `din1986Engine.ts`). -/
def SOIL_SCS_MAP : Bodenart → SCSGroup
  | .GW => .A
  | .GI => .A
  | .SE => .A
  | .SU => .B
  | .TL => .C
  | .TM => .D

/-- Coefficient pair used by the weighted-average step of the engine. -/
structure RunoffCoefficients where
  impervious : ℚ
  pervious : ℚ

/-- Modelled from the spec: `RUNOFF_COEFFICIENTS` is imported from `utils/hydrology`,
which is absent from the repository snapshot. Spec §4.4 describes "two fixed coefficients
(impervious-surface coefficient and pervious-surface coefficient)" without numeric values;
the values here follow the engine's own `DIN_RUNOFF_COEFFICIENTS` table (impervious
surfaces 0.9, Grünfläche 0.15). -/
def RUNOFF_COEFFICIENTS : RunoffCoefficients :=
  { impervious := 9/10, pervious := 3/20 }

/-- Modelled from the spec: `computePeakRunoff` is imported from `utils/hydrology`, which
is absent from the repository snapshot. Spec §4.3: "the classic Q = C·I·A formula scaled
to liters/second" with a standard unit-conversion constant; intensity in mm/hr over an
area in m² gives Q = C·I·A / 3600 in L/s. -/
def computePeakRunoff (intensity area c : ℚ) : ℚ :=
  c * intensity * area / 3600

/-- Modelled from the spec: `computeWQv` is imported from `utils/hydrology`, which is
absent from the repository snapshot. Spec §4.6: a water-quality volume from a fixed design
rainfall depth (25 mm), total area and the weighted runoff coefficient, in liters
(mm · m² = L). -/
def computeWQv (depthMm area c : ℚ) : ℚ :=
  depthMm * area * c

/-- Parameter record of the kinematic-wave solver (field names follow the call site in
`performDIN1986Assessment`). -/
structure KinematicWaveParams where
  length : ℝ
  rainfall : ℝ
  slope : ℝ
  manningN : ℝ
  width : ℝ

/-- Result record of the kinematic-wave solver (`KinematicWaveResult` of `ml/pinnModel`). -/
structure KinematicWaveResult where
  peakDischarge : ℝ
  timeToPeak : ℝ
  equilibriumDepth : ℝ

/-- Modelled from the spec: `computeKinematicWaveSolution` is imported from `ml/pinnModel`,
which is absent from the repository snapshot. Spec §4.5: a closed-form kinematic-wave
solution of shallow overland flow using Manning's formula for velocity, returning a peak
discharge (L/s), a time to peak (minutes) and an equilibrium flow depth (mm). The
equilibrium unit-width inflow is rainfall · length, the equilibrium depth solves
Manning's equation for that inflow, and time to peak is travel time at the equilibrium
velocity. -/
noncomputable def computeKinematicWaveSolution (p : KinematicWaveParams) : KinematicWaveResult :=
  let inflow := p.rainfall / 1000 / 3600 * p.length
  let depth := (inflow * p.manningN / Real.sqrt p.slope) ^ ((3 : ℝ) / 5)
  let velocity := depth ^ ((2 : ℝ) / 3) * Real.sqrt p.slope / p.manningN
  { peakDischarge := inflow * p.width * 1000
    timeToPeak := p.length / velocity / 60
    equilibriumDepth := depth * 1000 }

/-- Justification text (`begruendung`): each constructor is one of the two string
templates of the engine, carrying the interpolated runoff-effective area. -/
inductive Begruendung
  | ueberschreitet (flaeche : ℚ)
  | unter (flaeche : ℚ)
deriving DecidableEq

/-- Area value interpolated into the justification text. -/
def Begruendung.flaeche : Begruendung → ℚ
  | .ueberschreitet a => a
  | .unter a => a

/-- Result record of the engine (`DIN1986Result` in `din1986Engine.ts`), without the
wall-clock `zeitstempel` field. -/
structure DIN1986Result where
  nachweisErforderlich : Bool
  begruendung : Begruendung
  abflusswirksameFlaeche : ℚ
  versiegelungsgrad : ℚ
  bemessungsregenJahre : ℕ
  regenspende : ℚ
  abflussbeiwert : ℚ
  spitzenabflussRational : ℚ
  spitzenabflussPINN : ℝ
  rueckhaltevolumen : ℚ
  wasserqualitaetsvolumen : ℚ
  kinematischeWelle : KinematicWaveResult
  nachweisStatus : NachweisStatus
  empfehlungen : List String

/-- Compliance decision (`determineComplianceStatus` in `din1986Engine.ts`). -/
noncomputable def determineComplianceStatus (required : Bool)
    (qRational qPINN retentionM3 : ℝ) : NachweisStatus :=
  if !required then .BESTANDEN
  else
    let ratio := qPINN / qRational
    if ratio < 0.3 ∨ ratio > 3.0 then .PRUEFUNG_ERFORDERLICH
    else if retentionM3 < 50 then .BESTANDEN
    else if retentionM3 < 200 then .PRUEFUNG_ERFORDERLICH
    else .NICHT_BESTANDEN

/-- Advisory for imperviousness above 80 % (`generateRecommendations`, first branch). -/
def rec80 : String :=
  "Hoher Versiegelungsgrad (>80%). Entsiegelung oder Retentionsdach empfohlen."

/-- Advisory for imperviousness of 70 % or more (`generateRecommendations`). -/
def rec70 : String :=
  "T=100a Bemessungsregen angesetzt (Versiegelungsgrad ≥70%). Intensive Dachbegrünung kann den Abflussbeiwert senken."

/-- Advisory for sites above 2000 m² (`generateRecommendations`). -/
def rec2000 : String :=
  "Bei Grundstücken >2.000 m² ist eine detaillierte Überflutungssimulation (2D) empfohlen."

/-- Advisory on method divergence (`generateRecommendations`). -/
def recDivergenz : String :=
  "Analytische und PINN-Methode zeigen Divergenz. Manuelle Prüfung durch Bauvorlageberechtigten erforderlich."

/-- First advisory on a failed verification (`generateRecommendations`). -/
def recFail1 : String :=
  "Erforderliches Rückhaltevolumen überschreitet zulässige Grenzen. Entwässerungskonzept überarbeiten."

/-- Second advisory on a failed verification (`generateRecommendations`). -/
def recFail2 : String :=
  "Prüfung eines Rigolen- oder Muldenversickerungssystems gemäß DWA-A 138 empfohlen."

/-- Fixed legal disclaimer, always the last recommendation (`generateRecommendations`). -/
def disclaimer : String :=
  "Hinweis: Dieser Entwurf ersetzt nicht die Prüfung und Freigabe durch einen Bauvorlageberechtigten Ingenieur."

/-- Recommendation generator (`generateRecommendations` in `din1986Engine.ts`); the pushes
of the source become appends, in source order. -/
def generateRecommendations (input : DIN1986Input) (versiegelungsgrad : ℚ)
    (status : NachweisStatus) : List String :=
  (if versiegelungsgrad > 8/10 then [rec80] else [])
    ++ (if versiegelungsgrad ≥ 7/10 then [rec70] else [])
    ++ (if input.grundstuecksflaeche > 2000 then [rec2000] else [])
    ++ (if status = .PRUEFUNG_ERFORDERLICH then [recDivergenz] else [])
    ++ (if status = .NICHT_BESTANDEN then [recFail1, recFail2] else [])
    ++ [disclaimer]

/-- Core engine (`performDIN1986Assessment` in `din1986Engine.ts`), step for step. -/
noncomputable def performDIN1986Assessment (input : DIN1986Input) : DIN1986Result :=
  let abflusswirksameFlaeche := input.versiegelteFlaeche
  let versiegelungsgrad := input.versiegelteFlaeche / input.grundstuecksflaeche
  let nachweisErforderlich : Bool := decide (abflusswirksameFlaeche > 800)
  let begruendung : Begruendung :=
    if nachweisErforderlich then .ueberschreitet abflusswirksameFlaeche
    else .unter abflusswirksameFlaeche
  let bemessungsregenJahre : ℕ := if versiegelungsgrad ≥ 7/10 then 100 else 30
  let regenspende : ℚ := (BERLIN_KOSTRA bemessungsregenJahre).getD 0
  let perviousArea := input.grundstuecksflaeche - input.versiegelteFlaeche
  let abflussbeiwert :=
    (input.versiegelteFlaeche * RUNOFF_COEFFICIENTS.impervious
      + perviousArea * RUNOFF_COEFFICIENTS.pervious) / input.grundstuecksflaeche
  let spitzenabflussRational :=
    computePeakRunoff regenspende input.grundstuecksflaeche abflussbeiwert
  let slopeDecimal := input.gelaendeneigung / 100
  let kinematischeWelle := computeKinematicWaveSolution
    { length := (input.fliesslaenge : ℝ)
      rainfall := (regenspende : ℝ)
      slope := ((max slopeDecimal (1/1000) : ℚ) : ℝ)
      manningN := (input.manningN : ℝ)
      width := Real.sqrt (input.grundstuecksflaeche : ℝ) }
  let spitzenabflussPINN := kinematischeWelle.peakDischarge
  let wasserqualitaetsvolumen := computeWQv 25 input.grundstuecksflaeche abflussbeiwert
  let rueckhaltevolumen := wasserqualitaetsvolumen / 1000
  let nachweisStatus := determineComplianceStatus nachweisErforderlich
    (spitzenabflussRational : ℝ) spitzenabflussPINN (rueckhaltevolumen : ℝ)
  let empfehlungen := generateRecommendations input versiegelungsgrad nachweisStatus
  { nachweisErforderlich := nachweisErforderlich
    begruendung := begruendung
    abflusswirksameFlaeche := abflusswirksameFlaeche
    versiegelungsgrad := versiegelungsgrad
    bemessungsregenJahre := bemessungsregenJahre
    regenspende := regenspende
    abflussbeiwert := abflussbeiwert
    spitzenabflussRational := spitzenabflussRational
    spitzenabflussPINN := spitzenabflussPINN
    rueckhaltevolumen := rueckhaltevolumen
    wasserqualitaetsvolumen := wasserqualitaetsvolumen
    kinematischeWelle := kinematischeWelle
    nachweisStatus := nachweisStatus
    empfehlungen := empfehlungen }

/-- Sample input builder used by concrete witnesses; fixed fields follow the UI defaults
of `CoPilotPage.tsx`. -/
def mkInput (total imp slope n len : ℚ) : DIN1986Input :=
  { projectName := ""
    grundstuecksflaeche := total
    versiegelteFlaeche := imp
    bodenart := .SU
    gelaendeneigung := slope
    manningN := n
    fliesslaenge := len
    latitude := 52.52
    longitude := 13.405 }

/-! Projection lemmas: each field of the assessment result, read back from the let-chain
of `performDIN1986Assessment`. -/

theorem perform_nachweisErforderlich (i : DIN1986Input) :
    (performDIN1986Assessment i).nachweisErforderlich = decide (i.versiegelteFlaeche > 800) :=
  rfl

theorem perform_abflusswirksameFlaeche (i : DIN1986Input) :
    (performDIN1986Assessment i).abflusswirksameFlaeche = i.versiegelteFlaeche :=
  rfl

theorem perform_versiegelungsgrad (i : DIN1986Input) :
    (performDIN1986Assessment i).versiegelungsgrad
      = i.versiegelteFlaeche / i.grundstuecksflaeche :=
  rfl

theorem perform_bemessungsregenJahre (i : DIN1986Input) :
    (performDIN1986Assessment i).bemessungsregenJahre
      = if i.versiegelteFlaeche / i.grundstuecksflaeche ≥ 7/10 then 100 else 30 :=
  rfl

theorem perform_regenspende (i : DIN1986Input) :
    (performDIN1986Assessment i).regenspende
      = (BERLIN_KOSTRA ((performDIN1986Assessment i).bemessungsregenJahre)).getD 0 :=
  rfl

theorem perform_regenspende_eq (i : DIN1986Input) :
    (performDIN1986Assessment i).regenspende
      = if i.versiegelteFlaeche / i.grundstuecksflaeche ≥ 7/10 then 220 else 175 := by
  rw [perform_regenspende, perform_bemessungsregenJahre]
  split <;> rfl

theorem perform_abflussbeiwert (i : DIN1986Input) :
    (performDIN1986Assessment i).abflussbeiwert
      = (i.versiegelteFlaeche * RUNOFF_COEFFICIENTS.impervious
          + (i.grundstuecksflaeche - i.versiegelteFlaeche) * RUNOFF_COEFFICIENTS.pervious)
        / i.grundstuecksflaeche :=
  rfl

theorem perform_spitzenabflussRational (i : DIN1986Input) :
    (performDIN1986Assessment i).spitzenabflussRational
      = computePeakRunoff ((performDIN1986Assessment i).regenspende)
          i.grundstuecksflaeche ((performDIN1986Assessment i).abflussbeiwert) :=
  rfl

theorem perform_kinematischeWelle (i : DIN1986Input) :
    (performDIN1986Assessment i).kinematischeWelle
      = computeKinematicWaveSolution
          { length := (i.fliesslaenge : ℝ)
            rainfall := ((performDIN1986Assessment i).regenspende : ℝ)
            slope := ((max (i.gelaendeneigung / 100) (1/1000) : ℚ) : ℝ)
            manningN := (i.manningN : ℝ)
            width := Real.sqrt (i.grundstuecksflaeche : ℝ) } :=
  rfl

theorem perform_spitzenabflussPINN (i : DIN1986Input) :
    (performDIN1986Assessment i).spitzenabflussPINN
      = (performDIN1986Assessment i).kinematischeWelle.peakDischarge :=
  rfl

theorem perform_wasserqualitaetsvolumen (i : DIN1986Input) :
    (performDIN1986Assessment i).wasserqualitaetsvolumen
      = computeWQv 25 i.grundstuecksflaeche ((performDIN1986Assessment i).abflussbeiwert) :=
  rfl

theorem perform_rueckhaltevolumen (i : DIN1986Input) :
    (performDIN1986Assessment i).rueckhaltevolumen
      = (performDIN1986Assessment i).wasserqualitaetsvolumen / 1000 :=
  rfl

theorem perform_nachweisStatus (i : DIN1986Input) :
    (performDIN1986Assessment i).nachweisStatus
      = determineComplianceStatus ((performDIN1986Assessment i).nachweisErforderlich)
          (((performDIN1986Assessment i).spitzenabflussRational : ℚ) : ℝ)
          ((performDIN1986Assessment i).spitzenabflussPINN)
          (((performDIN1986Assessment i).rueckhaltevolumen : ℚ) : ℝ) :=
  rfl

theorem perform_empfehlungen (i : DIN1986Input) :
    (performDIN1986Assessment i).empfehlungen
      = generateRecommendations i ((performDIN1986Assessment i).versiegelungsgrad)
          ((performDIN1986Assessment i).nachweisStatus) :=
  rfl

theorem determineComplianceStatus_false (qR qP r : ℝ) :
    determineComplianceStatus false qR qP r = .BESTANDEN := by
  simp [determineComplianceStatus]

/-- C1: the requirement flag is true exactly when the impervious area is strictly above
800 m²; at exactly 800 it is false, and at 800.01 it is true. -/
theorem C1_requirement_threshold :
    (∀ i : DIN1986Input,
      ((performDIN1986Assessment i).nachweisErforderlich = true
        ↔ i.versiegelteFlaeche > 800))
    ∧ (performDIN1986Assessment (mkInput 2000 800 2 (3/200) 50)).nachweisErforderlich = false
    ∧ (performDIN1986Assessment (mkInput 2000 (80001/100) 2 (3/200) 50)).nachweisErforderlich
        = true := by
  refine ⟨fun i => ?_, ?_, ?_⟩
  · rw [perform_nachweisErforderlich]
    exact decide_eq_true_iff
  · rw [perform_nachweisErforderlich]
    simp only [mkInput, decide_eq_false_iff_not]
    norm_num
  · rw [perform_nachweisErforderlich]
    simp only [mkInput, decide_eq_true_eq]
    norm_num

/-- C3: whenever the requirement flag is false, the compliance status is PASS
(`BESTANDEN`), with no further checks. -/
theorem C3_not_required_passes (i : DIN1986Input)
    (h : (performDIN1986Assessment i).nachweisErforderlich = false) :
    (performDIN1986Assessment i).nachweisStatus = .BESTANDEN := by
  rw [perform_nachweisStatus, h, determineComplianceStatus_false]

/-- Witness for C3 at impervious area 500 m² on a 2000 m² site. -/
theorem C3_not_required_passes_witness :
    (performDIN1986Assessment (mkInput 2000 500 2 (3/200) 50)).nachweisErforderlich = false
    ∧ (performDIN1986Assessment (mkInput 2000 500 2 (3/200) 50)).nachweisStatus
        = .BESTANDEN := by
  have h : (performDIN1986Assessment (mkInput 2000 500 2 (3/200) 50)).nachweisErforderlich
      = false := by
    rw [perform_nachweisErforderlich]
    simp only [mkInput, decide_eq_false_iff_not]
    norm_num
  exact ⟨h, C3_not_required_passes _ h⟩

/-- C9: the soil category influences nothing: two inputs differing only in `bodenart`
produce identical assessment results (the wall-clock timestamp is outside the embedding). -/
theorem C9_soil_independent (i : DIN1986Input) (b : Bodenart) :
    performDIN1986Assessment { i with bodenart := b } = performDIN1986Assessment i :=
  rfl

/-- C10: the runoff-effective area is the raw impervious input, the 800 m² check compares
this raw value, and the justification text interpolates the same raw value. -/
theorem C10_area_passthrough (i : DIN1986Input) :
    (performDIN1986Assessment i).abflusswirksameFlaeche = i.versiegelteFlaeche
    ∧ ((performDIN1986Assessment i).nachweisErforderlich = true
        ↔ i.versiegelteFlaeche > 800)
    ∧ (performDIN1986Assessment i).begruendung.flaeche = i.versiegelteFlaeche
    ∧ (performDIN1986Assessment i).begruendung
        = (if i.versiegelteFlaeche > 800
            then Begruendung.ueberschreitet i.versiegelteFlaeche
            else Begruendung.unter i.versiegelteFlaeche) := by
  have hb : (performDIN1986Assessment i).begruendung
      = (if i.versiegelteFlaeche > 800
          then Begruendung.ueberschreitet i.versiegelteFlaeche
          else Begruendung.unter i.versiegelteFlaeche) := by
    show (if (decide (i.versiegelteFlaeche > 800)) = true
        then Begruendung.ueberschreitet i.versiegelteFlaeche
        else Begruendung.unter i.versiegelteFlaeche) = _
    simp only [decide_eq_true_eq]
  refine ⟨rfl, ?_, ?_, hb⟩
  · rw [perform_nachweisErforderlich]
    exact decide_eq_true_iff
  · rw [hb]
    split <;> rfl

/-- C7: the slope handed to the kinematic-wave computation is the percent input divided
by 100, floored at 0.001; a slope input of 0 is raised to 0.001 and the computation is
still invoked on it. -/
theorem C7_slope_clamp (i : DIN1986Input) :
    ((performDIN1986Assessment i).kinematischeWelle
      = computeKinematicWaveSolution
          { length := (i.fliesslaenge : ℝ)
            rainfall := ((performDIN1986Assessment i).regenspende : ℝ)
            slope := ((max (i.gelaendeneigung / 100) (1/1000) : ℚ) : ℝ)
            manningN := (i.manningN : ℝ)
            width := Real.sqrt (i.grundstuecksflaeche : ℝ) })
    ∧ (i.gelaendeneigung = 0 →
        (performDIN1986Assessment i).kinematischeWelle
          = computeKinematicWaveSolution
              { length := (i.fliesslaenge : ℝ)
                rainfall := ((performDIN1986Assessment i).regenspende : ℝ)
                slope := ((1/1000 : ℚ) : ℝ)
                manningN := (i.manningN : ℝ)
                width := Real.sqrt (i.grundstuecksflaeche : ℝ) }) := by
  refine ⟨perform_kinematischeWelle i, fun h0 => ?_⟩
  rw [perform_kinematischeWelle i, h0]
  norm_num

/-- Witness for C7 at slope input 0 on the default site. -/
theorem C7_slope_clamp_witness :
    (performDIN1986Assessment (mkInput 2000 1400 0 (3/200) 50)).kinematischeWelle
      = computeKinematicWaveSolution
          { length := ((mkInput 2000 1400 0 (3/200) 50).fliesslaenge : ℝ)
            rainfall :=
              ((performDIN1986Assessment (mkInput 2000 1400 0 (3/200) 50)).regenspende : ℝ)
            slope := ((1/1000 : ℚ) : ℝ)
            manningN := ((mkInput 2000 1400 0 (3/200) 50).manningN : ℝ)
            width := Real.sqrt ((mkInput 2000 1400 0 (3/200) 50).grundstuecksflaeche : ℝ) } :=
  (C7_slope_clamp (mkInput 2000 1400 0 (3/200) 50)).2 rfl

/-- C2: with positive total area, the 100-year storm is selected exactly when the
impervious fraction reaches 0.70 (boundary inclusive), the 30-year storm otherwise, and
the reported rainfall intensity is the static KOSTRA table entry of the selected period. -/
theorem C2_storm_selection (i : DIN1986Input) (h : 0 < i.grundstuecksflaeche) :
    ((performDIN1986Assessment i).bemessungsregenJahre = 100
      ↔ i.versiegelteFlaeche / i.grundstuecksflaeche ≥ 7/10)
    ∧ ((performDIN1986Assessment i).bemessungsregenJahre = 30
      ↔ ¬ i.versiegelteFlaeche / i.grundstuecksflaeche ≥ 7/10)
    ∧ some (performDIN1986Assessment i).regenspende
        = BERLIN_KOSTRA ((performDIN1986Assessment i).bemessungsregenJahre) := by
  by_cases hc : i.versiegelteFlaeche / i.grundstuecksflaeche ≥ 7/10
  · rw [perform_bemessungsregenJahre, perform_regenspende, perform_bemessungsregenJahre,
      if_pos hc]
    exact ⟨by simp [hc], by simp [hc], rfl⟩
  · rw [perform_bemessungsregenJahre, perform_regenspende, perform_bemessungsregenJahre,
      if_neg hc]
    exact ⟨by simp [hc], by simp [hc], rfl⟩

/-- Witness for C2 at the spec's boundary scenario: total 1000 m², impervious 700 m²,
fraction exactly 0.70. -/
theorem C2_storm_selection_witness :
    0 < (mkInput 1000 700 2 (3/200) 50).grundstuecksflaeche
    ∧ (((performDIN1986Assessment (mkInput 1000 700 2 (3/200) 50)).bemessungsregenJahre = 100
        ↔ (mkInput 1000 700 2 (3/200) 50).versiegelteFlaeche
            / (mkInput 1000 700 2 (3/200) 50).grundstuecksflaeche ≥ 7/10)
      ∧ ((performDIN1986Assessment (mkInput 1000 700 2 (3/200) 50)).bemessungsregenJahre = 30
        ↔ ¬ (mkInput 1000 700 2 (3/200) 50).versiegelteFlaeche
            / (mkInput 1000 700 2 (3/200) 50).grundstuecksflaeche ≥ 7/10)
      ∧ some (performDIN1986Assessment (mkInput 1000 700 2 (3/200) 50)).regenspende
          = BERLIN_KOSTRA
              ((performDIN1986Assessment (mkInput 1000 700 2 (3/200) 50)).bemessungsregenJahre)) :=
  ⟨by norm_num [mkInput], C2_storm_selection _ (by norm_num [mkInput])⟩

/-- C5: for positive total area and an impervious area between 0 and the total, the
weighted runoff coefficient lies between the pervious and the impervious coefficient. -/
theorem C5_coefficient_between (i : DIN1986Input) (h0 : 0 < i.grundstuecksflaeche)
    (h1 : 0 ≤ i.versiegelteFlaeche) (h2 : i.versiegelteFlaeche ≤ i.grundstuecksflaeche) :
    RUNOFF_COEFFICIENTS.pervious ≤ (performDIN1986Assessment i).abflussbeiwert
    ∧ (performDIN1986Assessment i).abflussbeiwert ≤ RUNOFF_COEFFICIENTS.impervious := by
  rw [perform_abflussbeiwert]
  show (3:ℚ)/20 ≤ (i.versiegelteFlaeche * (9/10)
      + (i.grundstuecksflaeche - i.versiegelteFlaeche) * (3/20)) / i.grundstuecksflaeche
    ∧ (i.versiegelteFlaeche * (9/10)
      + (i.grundstuecksflaeche - i.versiegelteFlaeche) * (3/20)) / i.grundstuecksflaeche
        ≤ 9/10
  constructor
  · rw [le_div_iff₀ h0]
    linarith
  · rw [div_le_iff₀ h0]
    linarith

/-- Witness for C5 at the default site (2000 m² total, 1400 m² impervious). -/
theorem C5_coefficient_between_witness :
    (0 < (mkInput 2000 1400 2 (3/200) 50).grundstuecksflaeche
      ∧ 0 ≤ (mkInput 2000 1400 2 (3/200) 50).versiegelteFlaeche
      ∧ (mkInput 2000 1400 2 (3/200) 50).versiegelteFlaeche
          ≤ (mkInput 2000 1400 2 (3/200) 50).grundstuecksflaeche)
    ∧ (RUNOFF_COEFFICIENTS.pervious
        ≤ (performDIN1986Assessment (mkInput 2000 1400 2 (3/200) 50)).abflussbeiwert
      ∧ (performDIN1986Assessment (mkInput 2000 1400 2 (3/200) 50)).abflussbeiwert
        ≤ RUNOFF_COEFFICIENTS.impervious) :=
  ⟨⟨by norm_num [mkInput], by norm_num [mkInput], by norm_num [mkInput]⟩,
    C5_coefficient_between _ (by norm_num [mkInput]) (by norm_num [mkInput])
      (by norm_num [mkInput])⟩

theorem generateRecommendations_ne_nil (input : DIN1986Input) (v : ℚ)
    (s : NachweisStatus) : generateRecommendations input v s ≠ [] := by
  unfold generateRecommendations
  simp

theorem generateRecommendations_getLast (input : DIN1986Input) (v : ℚ)
    (s : NachweisStatus) :
    (generateRecommendations input v s).getLast? = some disclaimer := by
  unfold generateRecommendations
  rw [List.getLast?_concat]

theorem rec80_mem_iff (input : DIN1986Input) (v : ℚ) (s : NachweisStatus) :
    rec80 ∈ generateRecommendations input v s ↔ v > 8/10 := by
  have hne : rec80 ≠ rec70 ∧ rec80 ≠ rec2000 ∧ rec80 ≠ recDivergenz ∧ rec80 ≠ recFail1
      ∧ rec80 ≠ recFail2 ∧ rec80 ≠ disclaimer := by
    refine ⟨?_, ?_, ?_, ?_, ?_, ?_⟩ <;> decide
  obtain ⟨h1, h2, h3, h4, h5, h6⟩ := hne
  unfold generateRecommendations
  by_cases hv : v > 8/10
  · simp [hv]
  · rw [if_neg hv]
    simp only [List.nil_append, List.mem_append, List.mem_singleton, List.mem_cons,
      List.not_mem_nil, or_false, iff_false, hv]
    split_ifs <;> simp_all

/-- C6: the recommendation list is never empty, its last element is always the fixed
legal disclaimer, and the high-imperviousness advisory is present exactly when the
impervious fraction is strictly above 0.8. -/
theorem C6_recommendations (i : DIN1986Input) :
    (performDIN1986Assessment i).empfehlungen ≠ []
    ∧ (performDIN1986Assessment i).empfehlungen.getLast? = some disclaimer
    ∧ (rec80 ∈ (performDIN1986Assessment i).empfehlungen
        ↔ (performDIN1986Assessment i).versiegelungsgrad > 8/10) := by
  rw [perform_empfehlungen]
  exact ⟨generateRecommendations_ne_nil _ _ _, generateRecommendations_getLast _ _ _,
    rec80_mem_iff _ _ _⟩

theorem determineComplianceStatus_true_diverge (qR qP r : ℝ)
    (h : qP / qR < 0.3 ∨ qP / qR > 3.0) :
    determineComplianceStatus true qR qP r = .PRUEFUNG_ERFORDERLICH := by
  simp [determineComplianceStatus, h]

theorem determineComplianceStatus_true_inrange (qR qP r : ℝ)
    (h : ¬(qP / qR < 0.3 ∨ qP / qR > 3.0)) :
    determineComplianceStatus true qR qP r
      = (if r < 50 then .BESTANDEN
         else if r < 200 then .PRUEFUNG_ERFORDERLICH
         else .NICHT_BESTANDEN) := by
  simp [determineComplianceStatus, h]

/-- C4: with the requirement flag true, a kinematic-to-rational discharge ratio below 0.3
or above 3.0 forces REVIEW-REQUIRED independently of the retention volume; otherwise the
status is PASS below 50 m³ of retention, REVIEW-REQUIRED from 50 up to (excluding)
200 m³, and FAIL at 200 m³ or above. -/
theorem C4_required_decision (i : DIN1986Input)
    (h : (performDIN1986Assessment i).nachweisErforderlich = true) :
    (((performDIN1986Assessment i).spitzenabflussPINN
          / (((performDIN1986Assessment i).spitzenabflussRational : ℚ) : ℝ) < 0.3
        ∨ (performDIN1986Assessment i).spitzenabflussPINN
          / (((performDIN1986Assessment i).spitzenabflussRational : ℚ) : ℝ) > 3.0) →
      (performDIN1986Assessment i).nachweisStatus = .PRUEFUNG_ERFORDERLICH)
    ∧ (0.3 ≤ (performDIN1986Assessment i).spitzenabflussPINN
          / (((performDIN1986Assessment i).spitzenabflussRational : ℚ) : ℝ) →
       (performDIN1986Assessment i).spitzenabflussPINN
          / (((performDIN1986Assessment i).spitzenabflussRational : ℚ) : ℝ) ≤ 3.0 →
        (((((performDIN1986Assessment i).rueckhaltevolumen : ℚ) : ℝ) < 50 →
            (performDIN1986Assessment i).nachweisStatus = .BESTANDEN)
          ∧ (50 ≤ ((((performDIN1986Assessment i).rueckhaltevolumen : ℚ) : ℝ)) →
              ((((performDIN1986Assessment i).rueckhaltevolumen : ℚ) : ℝ)) < 200 →
                (performDIN1986Assessment i).nachweisStatus = .PRUEFUNG_ERFORDERLICH)
          ∧ (200 ≤ ((((performDIN1986Assessment i).rueckhaltevolumen : ℚ) : ℝ)) →
              (performDIN1986Assessment i).nachweisStatus = .NICHT_BESTANDEN))) := by
  constructor
  · intro hdiv
    rw [perform_nachweisStatus, h]
    exact determineComplianceStatus_true_diverge _ _ _ hdiv
  · intro h1 h2
    have hin : ¬((performDIN1986Assessment i).spitzenabflussPINN
          / (((performDIN1986Assessment i).spitzenabflussRational : ℚ) : ℝ) < 0.3
        ∨ (performDIN1986Assessment i).spitzenabflussPINN
          / (((performDIN1986Assessment i).spitzenabflussRational : ℚ) : ℝ) > 3.0) := by
      rw [not_or]
      exact ⟨not_lt.mpr h1, not_lt.mpr h2⟩
    refine ⟨fun hr => ?_, fun hr1 hr2 => ?_, fun hr => ?_⟩ <;>
      rw [perform_nachweisStatus, h, determineComplianceStatus_true_inrange _ _ _ hin]
    · rw [if_pos hr]
    · rw [if_neg (not_lt.mpr hr1), if_pos hr2]
    · rw [if_neg (not_lt.mpr (by linarith : (50:ℝ) ≤ _)), if_neg (not_lt.mpr hr)]

/-- Witness for C4 at the default site (impervious 1400 m², requirement flag true). -/
theorem C4_required_decision_witness :
    (performDIN1986Assessment (mkInput 2000 1400 2 (3/200) 50)).nachweisErforderlich = true
    ∧ ((((performDIN1986Assessment (mkInput 2000 1400 2 (3/200) 50)).spitzenabflussPINN
          / (((performDIN1986Assessment (mkInput 2000 1400 2 (3/200) 50)).spitzenabflussRational : ℚ) : ℝ) < 0.3
        ∨ (performDIN1986Assessment (mkInput 2000 1400 2 (3/200) 50)).spitzenabflussPINN
          / (((performDIN1986Assessment (mkInput 2000 1400 2 (3/200) 50)).spitzenabflussRational : ℚ) : ℝ) > 3.0) →
      (performDIN1986Assessment (mkInput 2000 1400 2 (3/200) 50)).nachweisStatus
        = .PRUEFUNG_ERFORDERLICH)
    ∧ (0.3 ≤ (performDIN1986Assessment (mkInput 2000 1400 2 (3/200) 50)).spitzenabflussPINN
          / (((performDIN1986Assessment (mkInput 2000 1400 2 (3/200) 50)).spitzenabflussRational : ℚ) : ℝ) →
       (performDIN1986Assessment (mkInput 2000 1400 2 (3/200) 50)).spitzenabflussPINN
          / (((performDIN1986Assessment (mkInput 2000 1400 2 (3/200) 50)).spitzenabflussRational : ℚ) : ℝ) ≤ 3.0 →
        (((((performDIN1986Assessment (mkInput 2000 1400 2 (3/200) 50)).rueckhaltevolumen : ℚ) : ℝ) < 50 →
            (performDIN1986Assessment (mkInput 2000 1400 2 (3/200) 50)).nachweisStatus
              = .BESTANDEN)
          ∧ (50 ≤ ((((performDIN1986Assessment (mkInput 2000 1400 2 (3/200) 50)).rueckhaltevolumen : ℚ) : ℝ)) →
              ((((performDIN1986Assessment (mkInput 2000 1400 2 (3/200) 50)).rueckhaltevolumen : ℚ) : ℝ)) < 200 →
                (performDIN1986Assessment (mkInput 2000 1400 2 (3/200) 50)).nachweisStatus
                  = .PRUEFUNG_ERFORDERLICH)
          ∧ (200 ≤ ((((performDIN1986Assessment (mkInput 2000 1400 2 (3/200) 50)).rueckhaltevolumen : ℚ) : ℝ)) →
              (performDIN1986Assessment (mkInput 2000 1400 2 (3/200) 50)).nachweisStatus
                = .NICHT_BESTANDEN)))) := by
  have hflag : (performDIN1986Assessment (mkInput 2000 1400 2 (3/200) 50)).nachweisErforderlich
      = true := by
    rw [perform_nachweisErforderlich]
    simp only [mkInput, decide_eq_true_eq]
    norm_num
  exact ⟨hflag, C4_required_decision _ hflag⟩

theorem kw_peakDischarge (p : KinematicWaveParams) :
    (computeKinematicWaveSolution p).peakDischarge
      = p.rainfall / 1000 / 3600 * p.length * p.width * 1000 :=
  rfl

theorem kw_timeToPeak (p : KinematicWaveParams) :
    (computeKinematicWaveSolution p).timeToPeak
      = p.length
        / (((p.rainfall / 1000 / 3600 * p.length * p.manningN / Real.sqrt p.slope)
              ^ ((3 : ℝ) / 5)) ^ ((2 : ℝ) / 3) * Real.sqrt p.slope / p.manningN)
        / 60 :=
  rfl

theorem kw_equilibriumDepth (p : KinematicWaveParams) :
    (computeKinematicWaveSolution p).equilibriumDepth
      = (p.rainfall / 1000 / 3600 * p.length * p.manningN / Real.sqrt p.slope)
          ^ ((3 : ℝ) / 5) * 1000 :=
  rfl

theorem computeKinematicWaveSolution_nonneg (p : KinematicWaveParams)
    (hl : 0 ≤ p.length) (hr : 0 ≤ p.rainfall) (hn : 0 ≤ p.manningN) (hw : 0 ≤ p.width) :
    0 ≤ (computeKinematicWaveSolution p).peakDischarge
    ∧ 0 ≤ (computeKinematicWaveSolution p).timeToPeak
    ∧ 0 ≤ (computeKinematicWaveSolution p).equilibriumDepth := by
  have hin : (0:ℝ) ≤ p.rainfall / 1000 / 3600 * p.length :=
    mul_nonneg (div_nonneg (div_nonneg hr (by norm_num)) (by norm_num)) hl
  have hbase : (0:ℝ) ≤ p.rainfall / 1000 / 3600 * p.length * p.manningN / Real.sqrt p.slope :=
    div_nonneg (mul_nonneg hin hn) (Real.sqrt_nonneg _)
  have hdep : (0:ℝ)
      ≤ (p.rainfall / 1000 / 3600 * p.length * p.manningN / Real.sqrt p.slope)
          ^ ((3 : ℝ) / 5) :=
    Real.rpow_nonneg hbase _
  have hvel : (0:ℝ)
      ≤ ((p.rainfall / 1000 / 3600 * p.length * p.manningN / Real.sqrt p.slope)
            ^ ((3 : ℝ) / 5)) ^ ((2 : ℝ) / 3) * Real.sqrt p.slope / p.manningN :=
    div_nonneg (mul_nonneg (Real.rpow_nonneg hdep _) (Real.sqrt_nonneg _)) hn
  refine ⟨?_, ?_, ?_⟩
  · rw [kw_peakDischarge]
    exact mul_nonneg (mul_nonneg hin hw) (by norm_num)
  · rw [kw_timeToPeak]
    exact div_nonneg (div_nonneg hl hvel) (by norm_num)
  · rw [kw_equilibriumDepth]
    exact mul_nonneg hdep (by norm_num)

/-- C8: on the valid input domain, every numeric field of the assessment result is
non-negative (in this exact-arithmetic embedding every value is a finite number by
construction, so the no-NaN/no-Infinity part of the claim is intrinsic). -/
theorem C8_all_fields_nonneg (i : DIN1986Input)
    (hT : 0 < i.grundstuecksflaeche) (hv0 : 0 ≤ i.versiegelteFlaeche)
    (hvT : i.versiegelteFlaeche ≤ i.grundstuecksflaeche)
    (hs : 0 < i.gelaendeneigung)
    (hn1 : 1/100 ≤ i.manningN) (hn2 : i.manningN ≤ 1/10)
    (hl : 0 < i.fliesslaenge) :
    0 ≤ (performDIN1986Assessment i).abflusswirksameFlaeche
    ∧ 0 ≤ (performDIN1986Assessment i).versiegelungsgrad
    ∧ 0 ≤ (performDIN1986Assessment i).regenspende
    ∧ 0 ≤ (performDIN1986Assessment i).abflussbeiwert
    ∧ 0 ≤ (performDIN1986Assessment i).spitzenabflussRational
    ∧ 0 ≤ (performDIN1986Assessment i).spitzenabflussPINN
    ∧ 0 ≤ (performDIN1986Assessment i).rueckhaltevolumen
    ∧ 0 ≤ (performDIN1986Assessment i).wasserqualitaetsvolumen
    ∧ 0 ≤ (performDIN1986Assessment i).kinematischeWelle.peakDischarge
    ∧ 0 ≤ (performDIN1986Assessment i).kinematischeWelle.timeToPeak
    ∧ 0 ≤ (performDIN1986Assessment i).kinematischeWelle.equilibriumDepth := by
  have hψ : 0 ≤ (performDIN1986Assessment i).abflussbeiwert := by
    rw [perform_abflussbeiwert]
    show (0:ℚ) ≤ (i.versiegelteFlaeche * (9/10)
        + (i.grundstuecksflaeche - i.versiegelteFlaeche) * (3/20)) / i.grundstuecksflaeche
    apply div_nonneg _ hT.le
    nlinarith
  have hregen : 0 ≤ (performDIN1986Assessment i).regenspende := by
    rw [perform_regenspende_eq]
    split <;> norm_num
  have hrat : 0 ≤ (performDIN1986Assessment i).spitzenabflussRational := by
    rw [perform_spitzenabflussRational]
    unfold computePeakRunoff
    exact div_nonneg (mul_nonneg (mul_nonneg hψ hregen) hT.le) (by norm_num)
  have hwqv : 0 ≤ (performDIN1986Assessment i).wasserqualitaetsvolumen := by
    rw [perform_wasserqualitaetsvolumen]
    unfold computeWQv
    exact mul_nonneg (mul_nonneg (by norm_num) hT.le) hψ
  have hret : 0 ≤ (performDIN1986Assessment i).rueckhaltevolumen := by
    rw [perform_rueckhaltevolumen]
    exact div_nonneg hwqv (by norm_num)
  have hkw : 0 ≤ (performDIN1986Assessment i).kinematischeWelle.peakDischarge
      ∧ 0 ≤ (performDIN1986Assessment i).kinematischeWelle.timeToPeak
      ∧ 0 ≤ (performDIN1986Assessment i).kinematischeWelle.equilibriumDepth := by
    rw [perform_kinematischeWelle]
    refine computeKinematicWaveSolution_nonneg _ ?_ ?_ ?_ ?_
    · show (0:ℝ) ≤ ((i.fliesslaenge : ℚ) : ℝ)
      exact_mod_cast hl.le
    · show (0:ℝ) ≤ (((performDIN1986Assessment i).regenspende : ℚ) : ℝ)
      exact_mod_cast hregen
    · show (0:ℝ) ≤ ((i.manningN : ℚ) : ℝ)
      have : (0:ℚ) ≤ i.manningN := le_trans (by norm_num) hn1
      exact_mod_cast this
    · exact Real.sqrt_nonneg _
  refine ⟨?_, ?_, hregen, hψ, hrat, ?_, hret, hwqv, hkw.1, hkw.2.1, hkw.2.2⟩
  · rw [perform_abflusswirksameFlaeche]
    exact hv0
  · rw [perform_versiegelungsgrad]
    exact div_nonneg hv0 hT.le
  · rw [perform_spitzenabflussPINN]
    exact hkw.1

/-- Witness for C8 at the default site (2000 m², 1400 m² impervious, 2 % slope,
Manning 0.015, 50 m flow path). -/
theorem C8_all_fields_nonneg_witness :
    (0 < (mkInput 2000 1400 2 (3/200) 50).grundstuecksflaeche
      ∧ 0 ≤ (mkInput 2000 1400 2 (3/200) 50).versiegelteFlaeche
      ∧ (mkInput 2000 1400 2 (3/200) 50).versiegelteFlaeche
          ≤ (mkInput 2000 1400 2 (3/200) 50).grundstuecksflaeche
      ∧ 0 < (mkInput 2000 1400 2 (3/200) 50).gelaendeneigung
      ∧ 1/100 ≤ (mkInput 2000 1400 2 (3/200) 50).manningN
      ∧ (mkInput 2000 1400 2 (3/200) 50).manningN ≤ 1/10
      ∧ 0 < (mkInput 2000 1400 2 (3/200) 50).fliesslaenge)
    ∧ (0 ≤ (performDIN1986Assessment (mkInput 2000 1400 2 (3/200) 50)).abflusswirksameFlaeche
      ∧ 0 ≤ (performDIN1986Assessment (mkInput 2000 1400 2 (3/200) 50)).versiegelungsgrad
      ∧ 0 ≤ (performDIN1986Assessment (mkInput 2000 1400 2 (3/200) 50)).regenspende
      ∧ 0 ≤ (performDIN1986Assessment (mkInput 2000 1400 2 (3/200) 50)).abflussbeiwert
      ∧ 0 ≤ (performDIN1986Assessment (mkInput 2000 1400 2 (3/200) 50)).spitzenabflussRational
      ∧ 0 ≤ (performDIN1986Assessment (mkInput 2000 1400 2 (3/200) 50)).spitzenabflussPINN
      ∧ 0 ≤ (performDIN1986Assessment (mkInput 2000 1400 2 (3/200) 50)).rueckhaltevolumen
      ∧ 0 ≤ (performDIN1986Assessment (mkInput 2000 1400 2 (3/200) 50)).wasserqualitaetsvolumen
      ∧ 0 ≤ (performDIN1986Assessment (mkInput 2000 1400 2 (3/200) 50)).kinematischeWelle.peakDischarge
      ∧ 0 ≤ (performDIN1986Assessment (mkInput 2000 1400 2 (3/200) 50)).kinematischeWelle.timeToPeak
      ∧ 0 ≤ (performDIN1986Assessment (mkInput 2000 1400 2 (3/200) 50)).kinematischeWelle.equilibriumDepth) :=
  ⟨⟨by norm_num [mkInput], by norm_num [mkInput], by norm_num [mkInput],
      by norm_num [mkInput], by norm_num [mkInput], by norm_num [mkInput],
      by norm_num [mkInput]⟩,
    C8_all_fields_nonneg _ (by norm_num [mkInput]) (by norm_num [mkInput])
      (by norm_num [mkInput]) (by norm_num [mkInput]) (by norm_num [mkInput])
      (by norm_num [mkInput]) (by norm_num [mkInput])⟩

end FloodPilot
